import Mathlib

/-!
Shallow embedding of the L-M-S library management system (Python sources:
`book.py`, `member.py`, `library.py`, `issue_return.py`, `search.py`,
`auth_system.py`).

Python dictionaries are modelled as association lists kept in insertion
order (`List Book` keyed by `isbn`, `List Member` keyed by `member_id`,
`List (String × Session)` keyed by token); a lookup reads the first entry
with a matching key and an in-place mutation of a looked-up object is
modelled by rewriting the first entry with that key.  `datetime.now()` is
modelled by an explicit integer timestamp argument (seconds), and the
SHA-256 hash by an abstract `hash : String → String` parameter.
-/

set_option autoImplicit false

namespace LMS

/-- Rewrite the first element of a list satisfying `p` by `f`; models an
in-place mutation of the object found by a first-match lookup. -/
def updateFirst {α : Type} (p : α → Bool) (f : α → α) : List α → List α
  | [] => []
  | a :: as => if p a then f a :: as else a :: updateFirst p f as

/-- `book.py`: class `Book` with fields isbn, title, author, copies. -/
structure Book where
  isbn : String
  title : String
  author : String
  copies : Int
deriving DecidableEq, BEq, Repr

/-- `member.py`: class `Member` with fields member_id, name, borrowed_books. -/
structure Member where
  member_id : String
  name : String
  borrowed_books : List String
deriving DecidableEq, BEq, Repr

/-- `member.py`: `Member.has_book` — membership test on the borrowed list. -/
def Member.has_book (m : Member) (isbn : String) : Bool :=
  m.borrowed_books.contains isbn

/-- `member.py`: `Member.borrow_book` — append the isbn when absent,
returning whether it was added together with the updated member. -/
def Member.borrow_book (m : Member) (isbn : String) : Bool × Member :=
  if ¬ m.borrowed_books.contains isbn then
    (true, { m with borrowed_books := m.borrowed_books ++ [isbn] })
  else
    (false, m)

/-- `member.py`: `Member.return_book` — `list.remove` drops the first
occurrence of the isbn when present. -/
def Member.return_book (m : Member) (isbn : String) : Bool × Member :=
  if m.borrowed_books.contains isbn then
    (true, { m with borrowed_books := m.borrowed_books.erase isbn })
  else
    (false, m)

/-- `library.py`: class `Library`, with `books` the dict keyed by isbn and
`members` the dict keyed by member_id, both in insertion order. -/
structure Library where
  books : List Book
  members : List Member
deriving DecidableEq, BEq, Repr

/-- `library.py`: `Library.get_book` — `self.books.get(isbn)`. -/
def Library.get_book (lib : Library) (isbn : String) : Option Book :=
  lib.books.find? (fun b => b.isbn == isbn)

/-- `library.py`: `Library.get_member` — `self.members.get(member_id)`. -/
def Library.get_member (lib : Library) (member_id : String) : Option Member :=
  lib.members.find? (fun m => m.member_id == member_id)

/-! Failure and success messages of `issue_return.py` (Python f-strings). -/

def msgBookNotFound (isbn : String) : String :=
  "Book with ISBN " ++ isbn ++ " not found in library"

def msgNotAvailable (title : String) : String :=
  "Book \x27" ++ title ++ "\x27 is not available (no copies left)"

def msgAlreadyHas (name : String) : String :=
  "Member " ++ name ++ " already has this book"

def msgIssued (title name : String) : String :=
  "Book \x27" ++ title ++ "\x27 issued to " ++ name

def msgDoesntHave (name : String) : String :=
  "Member " ++ name ++ " doesn\x27t have this book"

def msgReturned (title name : String) : String :=
  "Book \x27" ++ title ++ "\x27 returned by " ++ name

def msgMemberNotFound (member_id : String) : String :=
  "Member with ID " ++ member_id ++ " not found"

/-- Result of `issue_book` / `return_book`: the returned
`(success, message)` pair together with the post-states of the mutated
library and member objects. -/
structure IssueResult where
  success : Bool
  message : String
  library : Library
  member : Member
deriving DecidableEq, Repr

/-- Result of the `_by_id` variants, where the member lives inside the
library's members dict. -/
structure OpResult where
  success : Bool
  message : String
  library : Library
deriving DecidableEq, Repr

/-- `issue_return.py`: `issue_book(library, isbn, member)`.  Checks book
existence, availability (`copies <= 0`) and duplicate holding in that
order; on success does `book.copies -= 1` on the found book object and
`member.borrow_book(isbn)`. -/
def issue_book (lib : Library) (isbn : String) (m : Member) : IssueResult :=
  match lib.get_book isbn with
  | none => ⟨false, msgBookNotFound isbn, lib, m⟩
  | some book =>
    if book.copies ≤ 0 then
      ⟨false, msgNotAvailable book.title, lib, m⟩
    else if m.has_book isbn then
      ⟨false, msgAlreadyHas m.name, lib, m⟩
    else
      let books' :=
        updateFirst (fun b => b.isbn == isbn) (fun b => { b with copies := b.copies - 1 }) lib.books
      ⟨true, msgIssued book.title m.name, { lib with books := books' }, (m.borrow_book isbn).2⟩

/-- `issue_return.py`: `return_book(library, isbn, member)`.  Checks book
existence and that the member holds the book; on success does
`book.copies += 1` and `member.return_book(isbn)`. -/
def return_book (lib : Library) (isbn : String) (m : Member) : IssueResult :=
  match lib.get_book isbn with
  | none => ⟨false, msgBookNotFound isbn, lib, m⟩
  | some book =>
    if ¬ m.has_book isbn then
      ⟨false, msgDoesntHave m.name, lib, m⟩
    else
      let books' :=
        updateFirst (fun b => b.isbn == isbn) (fun b => { b with copies := b.copies + 1 }) lib.books
      ⟨true, msgReturned book.title m.name, { lib with books := books' }, (m.return_book isbn).2⟩

/-- `issue_return.py`: `issue_book_by_id` — looks the member up in the
library and delegates to `issue_book`; the in-place mutation of the found
member is the rewrite of its entry in the members dict. -/
def issue_book_by_id (lib : Library) (isbn member_id : String) : OpResult :=
  match lib.get_member member_id with
  | none => ⟨false, msgMemberNotFound member_id, lib⟩
  | some m =>
    let r := issue_book lib isbn m
    let members' :=
      updateFirst (fun x => x.member_id == member_id) (fun _ => r.member) r.library.members
    ⟨r.success, r.message, { r.library with members := members' }⟩

/-- `issue_return.py`: `return_book_by_id` — same wrapping for
`return_book`. -/
def return_book_by_id (lib : Library) (isbn member_id : String) : OpResult :=
  match lib.get_member member_id with
  | none => ⟨false, msgMemberNotFound member_id, lib⟩
  | some m =>
    let r := return_book lib isbn m
    let members' :=
      updateFirst (fun x => x.member_id == member_id) (fun _ => r.member) r.library.members
    ⟨r.success, r.message, { r.library with members := members' }⟩

/-- Number of members whose borrowed list contains the given isbn. -/
def holders (ms : List Member) (isbn : String) : Nat :=
  ms.countP (fun m => m.borrowed_books.contains isbn)

/-- The per-ISBN total physical copy count: shelf copies of the catalog
entry plus the number of members holding that isbn (`none` when the isbn
is not in the catalog). -/
def totalCopies (lib : Library) (isbn : String) : Option Int :=
  (lib.get_book isbn).map (fun b => b.copies + (holders lib.members isbn : Int))

/-! `search.py`: the search module.  Python `str.lower()` is modelled by
`String.map Char.toLower` and the substring test `needle in hay` by
`List.isInfix` on the character lists. -/

/-- Python `s.lower()`: character-wise lowercasing. -/
def lowerStr (s : String) : String :=
  ⟨s.data.map Char.toLower⟩

/-- Contiguous-subsequence test on lists: `needle` occurs inside `hay`. -/
def containsSeq {α : Type} [BEq α] (needle : List α) : List α → Bool
  | [] => needle.isPrefixOf []
  | a :: t => needle.isPrefixOf (a :: t) || containsSeq needle t

/-- Python `needle in hay` on strings: substring containment. -/
def strContains (hay needle : String) : Bool :=
  containsSeq needle.data hay.data

/-- `search.py`: `search_by_title` — empty query short-circuits to `[]`,
otherwise the loop over `library.books.values()` keeps the books whose
lowered title contains the lowered query, in insertion order. -/
def search_by_title (lib : Library) (title : String) : List Book :=
  if title = "" then []
  else
    lib.books.filter (fun b => strContains (lowerStr b.title) (lowerStr title))

/-- `search.py`: `search_by_author` — same shape on the author field. -/
def search_by_author (lib : Library) (author : String) : List Book :=
  if author = "" then []
  else
    lib.books.filter (fun b => strContains (lowerStr b.author) (lowerStr author))

/-- `search.py`: `search_by_isbn` — exact lookup via `library.get_book`. -/
def search_by_isbn (lib : Library) (isbn : String) : Option Book :=
  lib.get_book isbn

/-- `search.py`: `search_books(library, query, search_type)` — empty query
returns `[]`; otherwise the title, author and isbn branches each extend
`results` when `search_type` selects them, skipping entries already in
`results`. -/
def search_books (lib : Library) (query : String) (search_type : String) : List Book :=
  if query = "" then []
  else
    let results : List Book := []
    let results :=
      if search_type = "all" ∨ search_type = "title" then
        results ++ search_by_title lib query
      else results
    let results :=
      if search_type = "all" ∨ search_type = "author" then
        (search_by_author lib query).foldl
          (fun rs b => if rs.contains b then rs else rs ++ [b]) results
      else results
    let results :=
      if search_type = "all" ∨ search_type = "isbn" then
        match search_by_isbn lib query with
        | some b => if results.contains b then results else results ++ [b]
        | none => results
      else results
    results

/-! `auth_system.py`: the authentication module. -/

/-- A session record: the dict stored in `AuthSystem.sessions`. -/
structure Session where
  username : String
  created_at : Int
  expires_at : Int
deriving DecidableEq, Repr

/-- A user record: the dict stored in `AuthSystem.users`. -/
structure UserRec where
  password : String
  role : String
  info : List (String × String)
  created_at : Int
  last_login : Option Int
deriving DecidableEq, Repr

/-- `auth_system.py`: class `AuthSystem` — `users` keyed by username,
`sessions` keyed by token, `session_timeout` in minutes. -/
structure AuthSystem where
  users : List (String × UserRec)
  sessions : List (String × Session)
  session_timeout : Int
deriving DecidableEq, Repr

/-- The default of the `session_timeout` parameter of
`AuthSystem.__init__` (minutes). -/
def defaultSessionTimeout : Int := 30

/-- Payload of the `authenticate` return tuple: an error message on
failure, the `{username, role, info}` dict on success. -/
inductive AuthRes where
  | err (msg : String)
  | ok (username role : String) (info : List (String × String))
deriving DecidableEq, Repr

/-- `auth_system.py`: `AuthSystem.add_user`. -/
def add_user (hash : String → String) (a : AuthSystem)
    (username password role : String) (info : List (String × String)) (now : Int) :
    Bool × AuthSystem :=
  if (a.users.lookup username).isSome then
    (false, a)
  else
    (true, { a with users :=
      a.users ++ [(username, ⟨hash password, role, info, now, none⟩)] })

/-- `auth_system.py`: `AuthSystem.authenticate` — unknown username and
wrong password fail with their messages; success updates the user's
`last_login` in place and returns the user data. -/
def authenticate (hash : String → String) (a : AuthSystem)
    (username password : String) (now : Int) :
    Bool × AuthRes × AuthSystem :=
  match a.users.lookup username with
  | none => (false, .err "Username not found", a)
  | some u =>
    if u.password ≠ hash password then
      (false, .err "Invalid password", a)
    else
      let users' :=
        updateFirst (fun p => p.1 == username)
          (fun p => (p.1, { p.2 with last_login := some now })) a.users
      (true, .ok username u.role u.info, { a with users := users' })

/-- `auth_system.py`: `AuthSystem.create_session` — unconditionally stores
`{username, created_at: now, expires_at: now + timedelta(minutes=timeout)}`
under the fresh token and returns the token.  The uuid4 token is an
explicit argument; time is in seconds, so the timeout contributes
`session_timeout * 60`. -/
def create_session (a : AuthSystem) (username token : String) (now : Int) :
    String × AuthSystem :=
  (token, { a with sessions :=
    (token, ⟨username, now, now + a.session_timeout * 60⟩) :: a.sessions })

/-- `auth_system.py`: `AuthSystem.validate_session` — unknown token is
invalid; a known token past its expiry is deleted and invalid; otherwise
valid with the session's username. -/
def validate_session (a : AuthSystem) (token : String) (now : Int) :
    Bool × Option String × AuthSystem :=
  match a.sessions.lookup token with
  | none => (false, none, a)
  | some s =>
    if s.expires_at < now then
      (false, none, { a with sessions := a.sessions.eraseP (fun p => p.1 == token) })
    else
      (true, some s.username, a)

/-- `auth_system.py`: `AuthSystem.logout` — delete the session when
present. -/
def logout (a : AuthSystem) (token : String) : Bool × AuthSystem :=
  if (a.sessions.lookup token).isSome then
    (true, { a with sessions := a.sessions.eraseP (fun p => p.1 == token) })
  else
    (false, a)

/-- `auth_system.py`: `AuthSystem.change_password` — re-authenticate with
the old password (this may touch `last_login`), then overwrite the stored
hash with the hash of the new password. -/
def change_password (hash : String → String) (a : AuthSystem)
    (username old_password new_password : String) (now : Int) :
    Bool × String × AuthSystem :=
  let r := authenticate hash a username old_password now
  if ¬ r.1 then
    (false, "Current password is incorrect", r.2.2)
  else
    let users' :=
      updateFirst (fun p => p.1 == username)
        (fun p => (p.1, { p.2 with password := hash new_password })) r.2.2.users
    (true, "Password changed successfully", { r.2.2 with users := users' })

/-- `auth_system.py`: `AuthSystem.cleanup_expired_sessions` — collect the
tokens of strictly expired sessions, delete each, and return how many. -/
def cleanup_expired_sessions (a : AuthSystem) (now : Int) : Nat × AuthSystem :=
  let expired := (a.sessions.filter (fun p => p.2.expires_at < now)).map Prod.fst
  let sessions' :=
    expired.foldl (fun ss t => ss.eraseP (fun p => p.1 == t)) a.sessions
  (expired.length, { a with sessions := sessions' })

/-! ### Helper lemmas about `updateFirst` -/

theorem find?_updateFirst_of_ne {α : Type} (p q : α → Bool) (f : α → α)
    (hq : ∀ a, q (f a) = q a) (hpq : ∀ a, p a = true → q a = false) :
    ∀ l : List α, (updateFirst p f l).find? q = l.find? q := by
  intro l
  induction l with
  | nil => rfl
  | cons a as ih =>
    by_cases hp : p a
    · simp [updateFirst, hp, List.find?_cons, hq a, hpq a hp]
    · simp only [updateFirst, if_neg hp, List.find?_cons]
      cases hqa : q a <;> simp [hqa, ih]

theorem find?_updateFirst_self {α : Type} (p : α → Bool) (f : α → α)
    (hf : ∀ a, p (f a) = p a) :
    ∀ l : List α, (updateFirst p f l).find? p = (l.find? p).map f := by
  intro l
  induction l with
  | nil => rfl
  | cons a as ih =>
    by_cases hp : p a
    · simp [updateFirst, hp, List.find?_cons, hf a]
    · simp [updateFirst, hp, List.find?_cons, ih]

theorem countP_updateFirst {α : Type} (p q : α → Bool) (f : α → α) :
    ∀ (l : List α) (a : α), l.find? p = some a →
      (updateFirst p f l).countP q + (if q a then 1 else 0)
        = l.countP q + (if q (f a) then 1 else 0) := by
  intro l
  induction l with
  | nil => intro a h; cases h
  | cons x xs ih =>
    intro a h
    by_cases hp : p x
    · have hax : a = x := by
        simp [List.find?_cons, hp] at h
        exact h.symm
      subst hax
      simp only [updateFirst, if_pos hp, List.countP_cons]
      cases hqa : q a <;> cases hqf : q (f a) <;> simp [hqa, hqf]
    · have h' : xs.find? p = some a := by
        simpa [List.find?_cons, hp] using h
      have := ih a h'
      simp only [updateFirst, if_neg hp, List.countP_cons]
      cases hqa : q a <;> cases hqf : q (f a) <;> cases hqx : q x <;>
        simp [hqa, hqf, hqx] at this ⊢ <;> omega

/-! ### Characterization lemmas for `issue_book` / `return_book` -/

theorem issue_book_of_none {lib : Library} {isbn : String} (m : Member)
    (h : lib.get_book isbn = none) :
    issue_book lib isbn m = ⟨false, msgBookNotFound isbn, lib, m⟩ := by
  simp [issue_book, h]

theorem issue_book_of_unavailable {lib : Library} {isbn : String} {b : Book} (m : Member)
    (h : lib.get_book isbn = some b) (hc : b.copies ≤ 0) :
    issue_book lib isbn m = ⟨false, msgNotAvailable b.title, lib, m⟩ := by
  simp [issue_book, h, hc]

theorem issue_book_of_already {lib : Library} {isbn : String} {b : Book} {m : Member}
    (h : lib.get_book isbn = some b) (hc : 0 < b.copies) (hm : m.has_book isbn = true) :
    issue_book lib isbn m = ⟨false, msgAlreadyHas m.name, lib, m⟩ := by
  simp [issue_book, h, hm, not_le.mpr hc]

theorem issue_book_of_success {lib : Library} {isbn : String} {b : Book} {m : Member}
    (h : lib.get_book isbn = some b) (hc : 0 < b.copies) (hm : m.has_book isbn = false) :
    issue_book lib isbn m =
      ⟨true, msgIssued b.title m.name,
        ⟨updateFirst (fun x => x.isbn == isbn)
           (fun x => { x with copies := x.copies - 1 }) lib.books, lib.members⟩,
        { m with borrowed_books := m.borrowed_books ++ [isbn] }⟩ := by
  have hm' : isbn ∉ m.borrowed_books := by
    simpa [Member.has_book] using hm
  simp [issue_book, h, hm, not_le.mpr hc, Member.borrow_book, hm']

theorem return_book_of_none {lib : Library} {isbn : String} (m : Member)
    (h : lib.get_book isbn = none) :
    return_book lib isbn m = ⟨false, msgBookNotFound isbn, lib, m⟩ := by
  simp [return_book, h]

theorem return_book_of_not_held {lib : Library} {isbn : String} {b : Book} {m : Member}
    (h : lib.get_book isbn = some b) (hm : m.has_book isbn = false) :
    return_book lib isbn m = ⟨false, msgDoesntHave m.name, lib, m⟩ := by
  simp [return_book, h, hm]

theorem return_book_of_success {lib : Library} {isbn : String} {b : Book} {m : Member}
    (h : lib.get_book isbn = some b) (hm : m.has_book isbn = true) :
    return_book lib isbn m =
      ⟨true, msgReturned b.title m.name,
        ⟨updateFirst (fun x => x.isbn == isbn)
           (fun x => { x with copies := x.copies + 1 }) lib.books, lib.members⟩,
        { m with borrowed_books := m.borrowed_books.erase isbn }⟩ := by
  have hm' : isbn ∈ m.borrowed_books := by
    simpa [Member.has_book] using hm
  simp [return_book, h, hm, Member.return_book, hm']

theorem issue_book_of_failure {lib : Library} {isbn : String} {m : Member}
    (h : (issue_book lib isbn m).success = false) :
    (issue_book lib isbn m).library = lib ∧ (issue_book lib isbn m).member = m := by
  match hb : lib.get_book isbn with
  | none => rw [issue_book_of_none m hb]; exact ⟨rfl, rfl⟩
  | some b =>
    by_cases hc : b.copies ≤ 0
    · rw [issue_book_of_unavailable m hb hc]; exact ⟨rfl, rfl⟩
    · have hc' : 0 < b.copies := lt_of_not_le hc
      cases hm : m.has_book isbn
      · rw [issue_book_of_success hb hc' hm] at h
        cases h
      · rw [issue_book_of_already hb hc' hm]; exact ⟨rfl, rfl⟩

theorem return_book_of_failure {lib : Library} {isbn : String} {m : Member}
    (h : (return_book lib isbn m).success = false) :
    (return_book lib isbn m).library = lib ∧ (return_book lib isbn m).member = m := by
  match hb : lib.get_book isbn with
  | none => rw [return_book_of_none m hb]; exact ⟨rfl, rfl⟩
  | some b =>
    cases hm : m.has_book isbn
    · rw [return_book_of_not_held hb hm]; exact ⟨rfl, rfl⟩
    · rw [return_book_of_success hb hm] at h
      cases h

/-! ### Sample data used by the concrete witnesses -/

def bookA : Book := ⟨"111", "Python Programming", "Ann Author", 2⟩

def bookB : Book := ⟨"222", "Advanced Python", "Bob Writer", 0⟩

def memC : Member := ⟨"m1", "Carol", []⟩

def libS : Library := ⟨[bookA, bookB], [memC]⟩

/-! ### Claims C2 and C3 -/

/-- C2: `issue_book` succeeds iff the book exists, has a strictly positive
copy count and the member does not already hold the isbn; on success the
found book's copies drop by exactly 1 and the isbn is appended to the
member's borrowed list; the three failure cases return, in check order,
the not-found, not-available and already-has messages with the state
untouched. -/
theorem C2_issue_book_spec (lib : Library) (isbn : String) (m : Member) :
    ((issue_book lib isbn m).success = true ↔
      (∃ b, lib.get_book isbn = some b ∧ 0 < b.copies) ∧ m.has_book isbn = false)
  ∧ (∀ b, lib.get_book isbn = some b → 0 < b.copies → m.has_book isbn = false →
      (issue_book lib isbn m).library.get_book isbn = some { b with copies := b.copies - 1 }
      ∧ (issue_book lib isbn m).member.borrowed_books = m.borrowed_books ++ [isbn]
      ∧ (issue_book lib isbn m).success = true)
  ∧ (lib.get_book isbn = none →
      issue_book lib isbn m = ⟨false, msgBookNotFound isbn, lib, m⟩)
  ∧ (∀ b, lib.get_book isbn = some b → b.copies ≤ 0 →
      issue_book lib isbn m = ⟨false, msgNotAvailable b.title, lib, m⟩)
  ∧ (∀ b, lib.get_book isbn = some b → 0 < b.copies → m.has_book isbn = true →
      issue_book lib isbn m = ⟨false, msgAlreadyHas m.name, lib, m⟩) := by
  refine ⟨?_, ?_, fun h => issue_book_of_none m h,
    fun b h hc => issue_book_of_unavailable m h hc,
    fun b h hc hm => issue_book_of_already h hc hm⟩
  · constructor
    · intro h
      match hb : lib.get_book isbn with
      | none => rw [issue_book_of_none m hb] at h; cases h
      | some b =>
        by_cases hc : b.copies ≤ 0
        · rw [issue_book_of_unavailable m hb hc] at h; cases h
        · have hc' : 0 < b.copies := lt_of_not_le hc
          cases hm : m.has_book isbn
          · exact ⟨⟨b, rfl, hc'⟩, rfl⟩
          · rw [issue_book_of_already hb hc' hm] at h; cases h
    · rintro ⟨⟨b, hb, hc⟩, hm⟩
      rw [issue_book_of_success hb hc hm]
  · intro b hb hc hm
    rw [issue_book_of_success hb hc hm]
    refine ⟨?_, rfl, rfl⟩
    have hb' : List.find? (fun x => x.isbn == isbn) lib.books = some b := hb
    show List.find? _ _ = _
    rw [find?_updateFirst_self (fun x => x.isbn == isbn)
      (fun x => { x with copies := x.copies - 1 }) (fun a => rfl) lib.books, hb']
    rfl

/-- C2 witness: issuing book "111" from the sample library to Carol
succeeds, decrements its copies from 2 to 1 and appends "111" to her
borrowed list. -/
theorem C2_issue_book_spec_witness :
    (issue_book libS "111" memC).library.get_book "111"
        = some { bookA with copies := bookA.copies - 1 }
    ∧ (issue_book libS "111" memC).member.borrowed_books = memC.borrowed_books ++ ["111"]
    ∧ (issue_book libS "111" memC).success = true :=
  (C2_issue_book_spec libS "111" memC).2.1 bookA (by decide) (by decide) (by decide)

/-- C3: whenever `issue_book` or `return_book` fails, the returned library
and member are exactly the ones passed in — no partial mutation on the
failure path. -/
theorem C3_failure_is_pure (lib : Library) (isbn : String) (m : Member) :
    ((issue_book lib isbn m).success = false →
      (issue_book lib isbn m).library = lib ∧ (issue_book lib isbn m).member = m)
  ∧ ((return_book lib isbn m).success = false →
      (return_book lib isbn m).library = lib ∧ (return_book lib isbn m).member = m) :=
  ⟨fun h => issue_book_of_failure h, fun h => return_book_of_failure h⟩

/-- C3 witness: the failed issue of the zero-copy book "222" and the failed
return of the un-borrowed book "111" both leave the sample state intact. -/
theorem C3_failure_is_pure_witness :
    ((issue_book libS "222" memC).library = libS ∧ (issue_book libS "222" memC).member = memC)
    ∧ ((return_book libS "111" memC).library = libS
        ∧ (return_book libS "111" memC).member = memC) :=
  ⟨(C3_failure_is_pure libS "222" memC).1 (by decide),
   (C3_failure_is_pure libS "111" memC).2 (by decide)⟩

/-! ### Claim C4: issue followed by return is an identity -/

/-- C4: under the issue preconditions, `issue_book` then `return_book` of
the same isbn by the same member both succeed, the intermediate copy count
is one less than the original, and both the book record and the member are
restored exactly. -/
theorem C4_issue_then_return (lib : Library) (isbn : String) (m : Member) (b : Book)
    (hb : lib.get_book isbn = some b) (hc : 0 < b.copies) (hm : m.has_book isbn = false) :
    (issue_book lib isbn m).success = true
  ∧ (return_book (issue_book lib isbn m).library isbn (issue_book lib isbn m).member).success
      = true
  ∧ (issue_book lib isbn m).library.get_book isbn = some { b with copies := b.copies - 1 }
  ∧ (return_book (issue_book lib isbn m).library isbn
      (issue_book lib isbn m).member).library.get_book isbn = some b
  ∧ (return_book (issue_book lib isbn m).library isbn (issue_book lib isbn m).member).member
      = m := by
  have hnotin : isbn ∉ m.borrowed_books := by
    simpa [Member.has_book] using hm
  rw [issue_book_of_success hb hc hm]
  have hb0 : List.find? (fun x => x.isbn == isbn) lib.books = some b := hb
  have h1 : (Library.mk (updateFirst (fun x => x.isbn == isbn)
      (fun x => { x with copies := x.copies - 1 }) lib.books) lib.members).get_book isbn
      = some { b with copies := b.copies - 1 } := by
    show List.find? _ _ = _
    rw [find?_updateFirst_self (fun x => x.isbn == isbn)
      (fun x => { x with copies := x.copies - 1 }) (fun a => rfl) lib.books, hb0]
    rfl
  have hm1 : Member.has_book { m with borrowed_books := m.borrowed_books ++ [isbn] } isbn
      = true := by
    simp [Member.has_book]
  rw [return_book_of_success h1 hm1]
  refine ⟨rfl, rfl, h1, ?_, ?_⟩
  · have h1' : List.find? (fun x => x.isbn == isbn)
        (updateFirst (fun x => x.isbn == isbn)
          (fun x => { x with copies := x.copies - 1 }) lib.books)
        = some { b with copies := b.copies - 1 } := h1
    show List.find? (fun x => x.isbn == isbn)
        (updateFirst (fun x => x.isbn == isbn) (fun x => { x with copies := x.copies + 1 })
          (updateFirst (fun x => x.isbn == isbn)
            (fun x => { x with copies := x.copies - 1 }) lib.books))
        = some b
    rw [find?_updateFirst_self (fun x => x.isbn == isbn)
      (fun x => { x with copies := x.copies + 1 }) (fun a => rfl)
      (updateFirst (fun x => x.isbn == isbn)
        (fun x => { x with copies := x.copies - 1 }) lib.books), h1']
    have h2 : b.copies - 1 + 1 = b.copies := by omega
    show some { b with copies := b.copies - 1 + 1 } = some b
    rw [h2]
  · show ({ m with borrowed_books := (m.borrowed_books ++ [isbn]).erase isbn } : Member) = m
    rw [List.erase_append_right _ hnotin, List.erase_cons_head, List.append_nil]

/-- C4 witness: issuing then returning book "111" with Carol restores the
sample library and her empty borrowed list. -/
theorem C4_issue_then_return_witness :
    (issue_book libS "111" memC).success = true
  ∧ (return_book (issue_book libS "111" memC).library "111"
      (issue_book libS "111" memC).member).success = true
  ∧ (issue_book libS "111" memC).library.get_book "111"
      = some { bookA with copies := bookA.copies - 1 }
  ∧ (return_book (issue_book libS "111" memC).library "111"
      (issue_book libS "111" memC).member).library.get_book "111" = some bookA
  ∧ (return_book (issue_book libS "111" memC).library "111"
      (issue_book libS "111" memC).member).member = memC :=
  C4_issue_then_return libS "111" memC bookA (by decide) (by decide) (by decide)

/-! ### Claim C1: conservation of the per-ISBN total copy count -/

theorem holders_updateFirst_write {ms : List Member} {mid : String} {m : Member}
    (m' : Member) (j : String)
    (hfind : ms.find? (fun x => x.member_id == mid) = some m) :
    holders (updateFirst (fun x => x.member_id == mid) (fun _ => m') ms) j
      + (if m.borrowed_books.contains j then 1 else 0)
    = holders ms j + (if m'.borrowed_books.contains j then 1 else 0) := by
  simpa [holders] using
    countP_updateFirst (fun x => x.member_id == mid)
      (fun x => x.borrowed_books.contains j) (fun _ => m') ms m hfind

theorem find?_books_update_ne {books : List Book} {isbn j : String} (hne : isbn ≠ j)
    (g : Book → Book) (hg : ∀ b, (g b).isbn = b.isbn) :
    (updateFirst (fun x => x.isbn == isbn) g books).find? (fun x => x.isbn == j)
      = books.find? (fun x => x.isbn == j) := by
  refine find?_updateFirst_of_ne _ _ _ (fun a => by rw [hg]) (fun a ha => ?_) books
  have h : a.isbn = isbn := by simpa using ha
  simp [h, hne]

theorem totalCopies_issue_by_id (lib : Library) (isbn mid j : String) :
    totalCopies (issue_book_by_id lib isbn mid).library j = totalCopies lib j := by
  cases hmem : lib.get_member mid with
  | none => simp [issue_book_by_id, hmem]
  | some m =>
    have hfind : lib.members.find? (fun x => x.member_id == mid) = some m := hmem
    simp only [issue_book_by_id, hmem]
    match hb : lib.get_book isbn with
    | none =>
      rw [issue_book_of_none m hb]
      have hh := holders_updateFirst_write m j hfind
      simp only [totalCopies, Library.get_book]
      have : holders (updateFirst (fun x => x.member_id == mid) (fun _ => m) lib.members) j
          = holders lib.members j := by omega
      simp [this]
    | some b =>
      by_cases hc : b.copies ≤ 0
      · rw [issue_book_of_unavailable m hb hc]
        have hh := holders_updateFirst_write m j hfind
        simp only [totalCopies, Library.get_book]
        have : holders (updateFirst (fun x => x.member_id == mid) (fun _ => m) lib.members) j
            = holders lib.members j := by omega
        simp [this]
      · have hc' : 0 < b.copies := lt_of_not_le hc
        cases hm : m.has_book isbn with
        | true =>
          rw [issue_book_of_already hb hc' hm]
          have hh := holders_updateFirst_write m j hfind
          simp only [totalCopies, Library.get_book]
          have : holders (updateFirst (fun x => x.member_id == mid) (fun _ => m) lib.members) j
              = holders lib.members j := by omega
          simp [this]
        | false =>
          rw [issue_book_of_success hb hc' hm]
          have hh := holders_updateFirst_write
            { m with borrowed_books := m.borrowed_books ++ [isbn] } j hfind
          by_cases hij : isbn = j
          · subst hij
            have hcm : m.borrowed_books.contains isbn = false := hm
            have hcm' : (m.borrowed_books ++ [isbn]).contains isbn = true := by simp
            rw [hcm, hcm'] at hh
            simp at hh
            have hb0 : List.find? (fun x => x.isbn == isbn) lib.books = some b := hb
            have hup : holders (updateFirst (fun x => x.member_id == mid)
                (fun _ => { m with borrowed_books := m.borrowed_books ++ [isbn] }) lib.members)
                isbn = holders lib.members isbn + 1 := by omega
            simp only [totalCopies, Library.get_book]
            rw [find?_updateFirst_self (fun x => x.isbn == isbn)
              (fun x => { x with copies := x.copies - 1 }) (fun a => rfl) lib.books, hb0]
            simp only [Option.map_some']
            congr 1
            rw [hup]
            show b.copies - 1 + ((holders lib.members isbn + 1 : Nat) : Int)
              = b.copies + (holders lib.members isbn : Int)
            push_cast
            ring
          · have hcj : (m.borrowed_books ++ [isbn]).contains j = m.borrowed_books.contains j := by
              have hne : ¬ j = isbn := fun h => hij h.symm
              simp [hne]
            rw [hcj] at hh
            simp only [totalCopies, Library.get_book]
            rw [find?_books_update_ne hij (fun x => { x with copies := x.copies - 1 })
              (fun bk => rfl)]
            have : holders (updateFirst (fun x => x.member_id == mid)
                (fun _ => { m with borrowed_books := m.borrowed_books ++ [isbn] }) lib.members) j
                = holders lib.members j := by omega
            simp [this]

theorem totalCopies_return_by_id (lib : Library) (isbn mid j : String)
    (hnd : ∀ m ∈ lib.members, m.borrowed_books.Nodup) :
    totalCopies (return_book_by_id lib isbn mid).library j = totalCopies lib j := by
  cases hmem : lib.get_member mid with
  | none => simp [return_book_by_id, hmem]
  | some m =>
    have hfind : lib.members.find? (fun x => x.member_id == mid) = some m := hmem
    have hmnd : m.borrowed_books.Nodup := hnd m (List.mem_of_find?_eq_some hfind)
    simp only [return_book_by_id, hmem]
    match hb : lib.get_book isbn with
    | none =>
      rw [return_book_of_none m hb]
      have hh := holders_updateFirst_write m j hfind
      simp only [totalCopies, Library.get_book]
      have : holders (updateFirst (fun x => x.member_id == mid) (fun _ => m) lib.members) j
          = holders lib.members j := by omega
      simp [this]
    | some b =>
      cases hm : m.has_book isbn with
      | false =>
        rw [return_book_of_not_held hb hm]
        have hh := holders_updateFirst_write m j hfind
        simp only [totalCopies, Library.get_book]
        have : holders (updateFirst (fun x => x.member_id == mid) (fun _ => m) lib.members) j
            = holders lib.members j := by omega
        simp [this]
      | true =>
        rw [return_book_of_success hb hm]
        have hin : isbn ∈ m.borrowed_books := by
          simpa [Member.has_book] using hm
        have hh := holders_updateFirst_write
          { m with borrowed_books := m.borrowed_books.erase isbn } j hfind
        by_cases hij : isbn = j
        · subst hij
          have hcm : m.borrowed_books.contains isbn = true := hm
          have hcm' : (m.borrowed_books.erase isbn).contains isbn = false := by
            simpa using hmnd.not_mem_erase
          rw [hcm, hcm'] at hh
          simp at hh
          have hb0 : List.find? (fun x => x.isbn == isbn) lib.books = some b := hb
          have hup : holders lib.members isbn
              = holders (updateFirst (fun x => x.member_id == mid)
                  (fun _ => { m with borrowed_books := m.borrowed_books.erase isbn })
                  lib.members) isbn + 1 := by omega
          simp only [totalCopies, Library.get_book]
          rw [find?_updateFirst_self (fun x => x.isbn == isbn)
            (fun x => { x with copies := x.copies + 1 }) (fun a => rfl) lib.books, hb0]
          simp only [Option.map_some']
          congr 1
          rw [hup]
          show b.copies + 1 + (holders (updateFirst (fun x => x.member_id == mid)
              (fun _ => { m with borrowed_books := m.borrowed_books.erase isbn })
              lib.members) isbn : Int)
            = b.copies + ((holders (updateFirst (fun x => x.member_id == mid)
                (fun _ => { m with borrowed_books := m.borrowed_books.erase isbn })
                lib.members) isbn + 1 : Nat) : Int)
          push_cast
          ring
        · have hcj : (m.borrowed_books.erase isbn).contains j = m.borrowed_books.contains j := by
            have hne : j ≠ isbn := fun h => hij h.symm
            simp [List.mem_erase_of_ne hne]
          rw [hcj] at hh
          simp only [totalCopies, Library.get_book]
          rw [find?_books_update_ne hij (fun x => { x with copies := x.copies + 1 })
            (fun bk => rfl)]
          have : holders (updateFirst (fun x => x.member_id == mid)
              (fun _ => { m with borrowed_books := m.borrowed_books.erase isbn }) lib.members) j
              = holders lib.members j := by omega
          simp [this]

/-- C1 counterexample: in a state where a member's borrowed list holds the
same isbn twice, a successful `return_book_by_id` increments the shelf
copies while the member still counts as a holder, so the per-ISBN total
grows — the claim fails on such a library state. -/
def memDup : Member := ⟨"m2", "Dave", ["111", "111"]⟩

def libDup : Library := ⟨[bookA], [memDup]⟩

theorem C1_counterexample :
    totalCopies (return_book_by_id libDup "111" "m2").library "111"
      ≠ totalCopies libDup "111" := by decide

/-- C1 (amended): in every library state whose members' borrowed lists are
duplicate-free, the per-ISBN total `copies + holders` of any catalogued
isbn is unchanged by every `issue_book_by_id` and `return_book_by_id`
call, successful or failed. -/
theorem C1_total_copies_conserved (lib : Library) (isbn mid j : String)
    (hnd : ∀ m ∈ lib.members, m.borrowed_books.Nodup)
    (hj : (lib.get_book j).isSome = true) :
    totalCopies (issue_book_by_id lib isbn mid).library j = totalCopies lib j
  ∧ totalCopies (return_book_by_id lib isbn mid).library j = totalCopies lib j :=
  ⟨totalCopies_issue_by_id lib isbn mid j, totalCopies_return_by_id lib isbn mid j hnd⟩

/-- C1 witness: in a sample library where Erin holds book "111", both a
(failing) issue and a (succeeding) return by id conserve the total. -/
def memD : Member := ⟨"m3", "Erin", ["111"]⟩

def libT : Library := ⟨[bookA, bookB], [memD]⟩

theorem C1_total_copies_conserved_witness :
    totalCopies (issue_book_by_id libT "111" "m3").library "111" = totalCopies libT "111"
  ∧ totalCopies (return_book_by_id libT "111" "m3").library "111" = totalCopies libT "111" :=
  C1_total_copies_conserved libT "111" "m3" "111"
    (by
      intro m hm
      have h : m = memD := by simpa [libT] using hm
      subst h
      decide)
    (by decide)

/-! ### Claim C8: title search (corrected: the empty query returns `[]`) -/

/-- C8 counterexample: on a non-empty catalog, `search_by_title` with the
empty query returns `[]`, not the case-insensitive-substring filter of the
books map (the empty string is a substring of every title, so the filter
keeps every book). -/
theorem C8_counterexample :
    search_by_title libS ""
      ≠ libS.books.filter (fun b => strContains (lowerStr b.title) (lowerStr "")) := by
  decide

/-- C8 (amended): for every non-empty query, title search returns exactly
the books whose lowered title contains the lowered query, in the insertion
order of the books map; the empty query short-circuits to the empty
list. -/
theorem C8_search_by_title_filter (lib : Library) (q : String) (hq : q ≠ "") :
    search_by_title lib q
      = lib.books.filter (fun b => strContains (lowerStr b.title) (lowerStr q))
  ∧ search_by_title lib "" = [] := by
  constructor
  · simp [search_by_title, hq]
  · simp [search_by_title]

/-- C8 witness: querying "Python" against the sample catalog returns the
filter of the books map, and the empty query returns nothing. -/
theorem C8_search_by_title_filter_witness :
    search_by_title libS "Python"
      = libS.books.filter (fun b => strContains (lowerStr b.title) (lowerStr "Python"))
  ∧ search_by_title libS "" = [] :=
  C8_search_by_title_filter libS "Python" (by decide)

/-! ### Claim C10: unknown search type and empty query -/

/-- C10: `search_books` returns `[]` for every search type outside
{all, title, author, isbn} (no branch fires), and for the empty query
under every search type. -/
theorem C10_search_books_empty (lib : Library) (q ty : String) :
    (q ≠ "" → ty ≠ "all" → ty ≠ "title" → ty ≠ "author" → ty ≠ "isbn" →
      search_books lib q ty = [])
  ∧ search_books lib "" ty = [] := by
  constructor
  · intro hq h1 h2 h3 h4
    simp [search_books, hq, h1, h2, h3, h4]
  · simp [search_books]

/-- C10 witness: the unknown type "bogus" with a non-empty query and the
empty query in title mode both return no books. -/
theorem C10_search_books_empty_witness :
    search_books libS "Python" "bogus" = [] ∧ search_books libS "" "title" = [] :=
  ⟨(C10_search_books_empty libS "Python" "bogus").1 (by decide) (by decide) (by decide)
      (by decide) (by decide),
   (C10_search_books_empty libS "Python" "title").2⟩

/-! ### Helper lemmas for the association-list dictionaries of `AuthSystem` -/

theorem lookup_updateFirst_pair {β : Type} (k : String) (g : β → β) :
    ∀ l : List (String × β),
      (updateFirst (fun p => p.1 == k) (fun p => (p.1, g p.2)) l).lookup k
        = (l.lookup k).map g := by
  intro l
  induction l with
  | nil => rfl
  | cons p ps ih =>
    obtain ⟨k', v⟩ := p
    by_cases hk : k' = k
    · subst hk
      simp [updateFirst, List.lookup]
    · have h1 : (k' == k) = false := by simp [hk]
      have h2 : (k == k') = false := by simp [Ne.symm hk]
      simp [updateFirst, List.lookup, h1, h2, ih]

theorem lookup_eq_of_mem_nodup {β : Type} {l : List (String × β)} {k : String} {v : β}
    (hnd : (l.map Prod.fst).Nodup) (hm : (k, v) ∈ l) : l.lookup k = some v := by
  induction l with
  | nil => cases hm
  | cons p ps ih =>
    obtain ⟨k', v'⟩ := p
    rcases List.mem_cons.mp hm with h | h
    · obtain ⟨h1, h2⟩ := Prod.mk.injEq .. ▸ h
      subst h1; subst h2
      simp [List.lookup]
    · have hk : k ≠ k' := by
        intro he
        subst he
        exact (List.nodup_cons.mp hnd).1 (List.mem_map.mpr ⟨(k, v), h, rfl⟩)
      have h2 : (k == k') = false := by simp [hk]
      simp only [List.lookup, h2]
      exact ih (List.nodup_cons.mp hnd).2 h

theorem lookup_eraseP_ne {β : Type} (tok t : String) (hne : t ≠ tok) :
    ∀ l : List (String × β),
      (l.eraseP (fun p => p.1 == t)).lookup tok = l.lookup tok := by
  intro l
  induction l with
  | nil => rfl
  | cons p ps ih =>
    obtain ⟨k, v⟩ := p
    by_cases hk : k = t
    · subst hk
      have h1 : (tok == k) = false := by simp [Ne.symm hne]
      simp [List.eraseP_cons, List.lookup, h1]
    · have h1 : (k == t) = false := by simp [hk]
      simp only [List.eraseP_cons, h1, cond_false]
      cases hx : (tok == k) <;> simp [List.lookup, hx, ih]

theorem lookup_foldl_eraseP {β : Type} (tok : String) :
    ∀ (ts : List String) (l : List (String × β)), tok ∉ ts →
      (ts.foldl (fun ss t => ss.eraseP (fun p => p.1 == t)) l).lookup tok = l.lookup tok := by
  intro ts
  induction ts with
  | nil => intro l _; rfl
  | cons t ts ih =>
    intro l hni
    have h1 : t ≠ tok := fun he => hni (by simp [he])
    have h2 : tok ∉ ts := fun hm => hni (List.mem_cons_of_mem _ hm)
    simp only [List.foldl_cons]
    rw [ih _ h2, lookup_eraseP_ne tok t h1]

/-! ### Characterization lemmas for `authenticate` / `change_password` -/

theorem authenticate_of_none {hash : String → String} {a : AuthSystem} {username : String}
    (password : String) (now : Int) (h : a.users.lookup username = none) :
    authenticate hash a username password now = (false, .err "Username not found", a) := by
  simp [authenticate, h]

theorem authenticate_of_wrong {hash : String → String} {a : AuthSystem}
    {username : String} {u : UserRec} (password : String) (now : Int)
    (h : a.users.lookup username = some u) (hp : u.password ≠ hash password) :
    authenticate hash a username password now = (false, .err "Invalid password", a) := by
  simp [authenticate, h, hp]

theorem authenticate_of_ok {hash : String → String} {a : AuthSystem}
    {username : String} {u : UserRec} (password : String) (now : Int)
    (h : a.users.lookup username = some u) (hp : u.password = hash password) :
    authenticate hash a username password now
      = (true, .ok username u.role u.info,
          { a with users := updateFirst (fun p => p.1 == username) (fun p => (p.1, { p.2 with last_login := some now })) a.users }) := by
  simp [authenticate, h, hp]

theorem change_password_of_fail {hash : String → String} {a : AuthSystem}
    {username old_password : String} (new_password : String) {now : Int}
    (h : (authenticate hash a username old_password now).1 = false) :
    change_password hash a username old_password new_password now
      = (false, "Current password is incorrect",
          (authenticate hash a username old_password now).2.2) := by
  simp [change_password, h]

theorem change_password_of_ok {hash : String → String} {a : AuthSystem}
    {username old_password : String} (new_password : String) {now : Int}
    (h : (authenticate hash a username old_password now).1 = true) :
    change_password hash a username old_password new_password now
      = (true, "Password changed successfully",
          { (authenticate hash a username old_password now).2.2 with
            users := updateFirst (fun p => p.1 == username) (fun p => (p.1, { p.2 with password := hash new_password })) (authenticate hash a username old_password now).2.2.users }) := by
  simp [change_password, h]

theorem lookup_updateFirst_password (k pw : String) (l : List (String × UserRec)) :
    (updateFirst (fun p => p.1 == k) (fun p => (p.1, { p.2 with password := pw })) l).lookup k
      = (l.lookup k).map (fun v => { v with password := pw }) :=
  lookup_updateFirst_pair k (fun v => { v with password := pw }) l

theorem lookup_updateFirst_login (k : String) (t : Int) (l : List (String × UserRec)) :
    (updateFirst (fun p => p.1 == k)
        (fun p => (p.1, { p.2 with last_login := some t })) l).lookup k
      = (l.lookup k).map (fun v => { v with last_login := some t }) :=
  lookup_updateFirst_pair k (fun v => { v with last_login := some t }) l

/-! ### Claim C5: validate_session fails closed -/

/-- C5: `validate_session` is invalid for an absent token (state untouched)
and for a known token strictly past its expiry (that entry is evicted on
the same call); it answers `(true, username)` exactly for a present,
unexpired session, leaving the store unchanged. -/
theorem C5_validate_session_spec (a : AuthSystem) (tok : String) (now : Int) :
    (a.sessions.lookup tok = none → validate_session a tok now = (false, none, a))
  ∧ (∀ s, a.sessions.lookup tok = some s → s.expires_at < now →
      validate_session a tok now
        = (false, none, { a with sessions := a.sessions.eraseP (fun p => p.1 == tok) }))
  ∧ (∀ s, a.sessions.lookup tok = some s → ¬ s.expires_at < now →
      validate_session a tok now = (true, some s.username, a))
  ∧ (∀ v u a', validate_session a tok now = (v, u, a') → v = true →
      ∃ s, a.sessions.lookup tok = some s ∧ now ≤ s.expires_at
        ∧ u = some s.username ∧ a' = a) := by
  refine ⟨fun h => by simp [validate_session, h],
    fun s hs hexp => by simp [validate_session, hs, hexp],
    fun s hs hexp => by simp [validate_session, hs, hexp],
    fun v u a' heq hv => ?_⟩
  subst hv
  match hs : a.sessions.lookup tok with
  | none => simp [validate_session, hs] at heq
  | some s =>
    by_cases hexp : s.expires_at < now
    · simp [validate_session, hs, hexp] at heq
    · have hval : validate_session a tok now = (true, some s.username, a) := by
        simp [validate_session, hs, hexp]
      rw [hval] at heq
      injection heq with h1 hrest
      injection hrest with h2 h3
      exact ⟨s, rfl, not_lt.mp hexp, h2.symm, h3.symm⟩

/-- Sample authentication state for the session witnesses: one session
token "t1" for alice expiring at time 1800, 30-minute timeout. -/
def sessS : Session := ⟨"alice", 0, 1800⟩

def authS : AuthSystem := ⟨[], [("t1", sessS)], 30⟩

/-- C5 witness: at time 2000 the session "t1" (expired at 1800) validates
as invalid and is evicted from the sample store. -/
theorem C5_validate_session_spec_witness :
    validate_session authS "t1" 2000
      = (false, none, { authS with sessions := authS.sessions.eraseP (fun p => p.1 == "t1") }) :=
  (C5_validate_session_spec authS "t1" 2000).2.1 sessS (by decide) (by decide)

/-! ### Claim C6: create_session is unconditional -/

/-- C6: `create_session` returns the fresh token, stores a session whose
expiry is the current time plus `session_timeout` (default 30) minutes,
leaves the users dict alone, and its stored sessions are independent of
the credential store — no existence check on the username. -/
theorem C6_create_session_spec (a : AuthSystem) (username tok : String) (now : Int) :
    (create_session a username tok now).1 = tok
  ∧ (create_session a username tok now).2.sessions.lookup tok
      = some ⟨username, now, now + a.session_timeout * 60⟩
  ∧ (create_session a username tok now).2.users = a.users
  ∧ (∀ users', (create_session { a with users := users' } username tok now).2.sessions
      = (create_session a username tok now).2.sessions)
  ∧ defaultSessionTimeout = 30 := by
  refine ⟨rfl, ?_, rfl, fun users' => rfl, rfl⟩
  simp [create_session, List.lookup]

/-- C6 witness: creating a session for the username "ghost", which is
absent from the sample credential store, still stores an entry expiring
30 minutes after the current time. -/
theorem C6_create_session_spec_witness :
    (create_session authS "ghost" "tok9" 100).2.sessions.lookup "tok9"
      = some ⟨"ghost", 100, 100 + authS.session_timeout * 60⟩ :=
  (C6_create_session_spec authS "ghost" "tok9" 100).2.1

/-! ### Claim C7: change_password requires and respects re-authentication -/

/-- C7: `change_password` succeeds exactly when authenticating with the
old password succeeds, and after a successful change (old and new hashing
differently) the old password no longer authenticates while the new one
does. -/
theorem C7_change_password_spec (hash : String → String) (a : AuthSystem)
    (username old_pw new_pw : String) (now now₂ now₃ : Int) :
    ((change_password hash a username old_pw new_pw now).1 = true
      ↔ (authenticate hash a username old_pw now).1 = true)
  ∧ ((change_password hash a username old_pw new_pw now).1 = true → hash old_pw ≠ hash new_pw →
      (authenticate hash (change_password hash a username old_pw new_pw now).2.2
          username old_pw now₂).1 = false
      ∧ (authenticate hash (change_password hash a username old_pw new_pw now).2.2
          username new_pw now₃).1 = true) := by
  constructor
  · cases hr : (authenticate hash a username old_pw now).1
    · rw [change_password_of_fail new_pw hr]
    · rw [change_password_of_ok new_pw hr]
  · intro hsucc hne
    have hr : (authenticate hash a username old_pw now).1 = true := by
      by_contra hf
      rw [change_password_of_fail new_pw (Bool.not_eq_true _ ▸ hf)] at hsucc
      cases hsucc
    match hlu : a.users.lookup username with
    | none =>
      rw [authenticate_of_none old_pw now hlu] at hr
      cases hr
    | some u =>
      by_cases hpw : u.password = hash old_pw
      · have hS : (change_password hash a username old_pw new_pw now).2.2.users.lookup username
            = some { u with last_login := some now, password := hash new_pw } := by
          rw [change_password_of_ok new_pw hr, authenticate_of_ok old_pw now hlu hpw]
          show (updateFirst (fun p => p.1 == username) (fun p => (p.1, { p.2 with password := hash new_pw })) (updateFirst (fun p => p.1 == username) (fun p => (p.1, { p.2 with last_login := some now })) a.users)).lookup username = some { u with last_login := some now, password := hash new_pw }
          rw [lookup_updateFirst_password username (hash new_pw),
            lookup_updateFirst_login username now, hlu]
          rfl
        have hne' : ({ u with last_login := some now, password := hash new_pw }
            : UserRec).password ≠ hash old_pw := by
          simpa using Ne.symm hne
        constructor
        · rw [authenticate_of_wrong old_pw now₂ hS hne']
        · rw [authenticate_of_ok new_pw now₃ hS rfl]
      · rw [authenticate_of_wrong old_pw now hlu hpw] at hr
        cases hr

/-- Sample credential store for the password-change witness: user "u" with
(identity-hashed) password "a". -/
def authW : AuthSystem := ⟨[("u", ⟨"a", "member", [], 0, none⟩)], [], 30⟩

/-- C7 witness: after changing "u"'s password from "a" to "b" (identity
hash), the old password fails and the new one succeeds. -/
theorem C7_change_password_spec_witness :
    (authenticate (fun s => s) (change_password (fun s => s) authW "u" "a" "b" 0).2.2
        "u" "a" 1).1 = false
  ∧ (authenticate (fun s => s) (change_password (fun s => s) authW "u" "a" "b" 0).2.2
        "u" "b" 2).1 = true :=
  (C7_change_password_spec (fun s => s) authW "u" "a" "b" 0 1 2).2 (by decide) (by decide)

/-! ### Claim C9: expiry is a strict boundary -/

/-- C9: a session whose expiry equals the current time still validates as
valid with no eviction, survives `cleanup_expired_sessions` at that time,
and only a strictly later time makes it invalid. -/
theorem C9_expiry_boundary (a : AuthSystem) (tok : String) (s : Session) (now : Int)
    (hnd : (a.sessions.map Prod.fst).Nodup)
    (hl : a.sessions.lookup tok = some s) (hb : s.expires_at = now) :
    validate_session a tok now = (true, some s.username, a)
  ∧ (cleanup_expired_sessions a now).2.sessions.lookup tok = some s
  ∧ (∀ later, s.expires_at < later → (validate_session a tok later).1 = false) := by
  have hnow : ¬ s.expires_at < now := by omega
  refine ⟨by simp [validate_session, hl, hnow], ?_, fun later hlt => ?_⟩
  · have hnotin : tok ∉ (a.sessions.filter (fun p => p.2.expires_at < now)).map Prod.fst := by
      intro hmem
      obtain ⟨p, hpf, hfst⟩ := List.mem_map.mp hmem
      have hpmem : p ∈ a.sessions := List.mem_of_mem_filter hpf
      have hpred : p.2.expires_at < now := by simpa using List.of_mem_filter hpf
      have hpl : a.sessions.lookup tok = some p.2 := by
        refine lookup_eq_of_mem_nodup hnd ?_
        rw [← hfst]
        exact hpmem
      rw [hl] at hpl
      injection hpl with hps
      rw [hps] at hb
      omega
    show (((a.sessions.filter (fun p => p.2.expires_at < now)).map Prod.fst).foldl
        (fun ss t => ss.eraseP (fun p => p.1 == t)) a.sessions).lookup tok = some s
    rw [lookup_foldl_eraseP tok _ a.sessions hnotin, hl]
  · simp [validate_session, hl, hlt]

/-- C9 witness: at exactly its expiry time 1800 the sample session "t1" is
valid and survives cleanup; at 1801 it is invalid. -/
theorem C9_expiry_boundary_witness :
    validate_session authS "t1" 1800 = (true, some sessS.username, authS)
  ∧ (cleanup_expired_sessions authS 1800).2.sessions.lookup "t1" = some sessS
  ∧ (validate_session authS "t1" 1801).1 = false :=
  ⟨(C9_expiry_boundary authS "t1" sessS 1800 (by decide) (by decide) (by decide)).1,
   (C9_expiry_boundary authS "t1" sessS 1800 (by decide) (by decide) (by decide)).2.1,
   (C9_expiry_boundary authS "t1" sessS 1800 (by decide) (by decide) (by decide)).2.2 1801
     (by decide)⟩

end LMS
